import Mathlib

/-!
# Verification of the twse_exporter fetch–cache–transform pipeline

Shallow embedding of `main.go` of the `twse_exporter` repository: the quote
fetcher (`fetchStockInfo`), the TTL cache (`getCachedStockInfo` with its
package-level cache cell), and the per-request metric transformation performed
inside the `/metrics` HTTP handler.

Times are modelled as natural numbers counting nanoseconds, matching Go's
`time.Duration`; `time.Since t` becomes truncated subtraction `now - t`
(a clock reading earlier than the stored timestamp yields 0, i.e. a cache
hit, just as a negative `time.Since` compares below the TTL in Go).
-/

namespace TwseExporter

/-- The `StockInfo` struct of `main.go`: one quote record, all fields are
strings deserialized from the upstream JSON (missing fields decode to `""`).
Field names follow the Go struct; the JSON tags are `@`, `tv`, `ps`, …, `ts`. -/
structure StockInfo where
  At      : String := ""
  Tv      : String := ""
  Ps      : String := ""
  Nu      : String := ""
  Pid     : String := ""
  Pz      : String := ""
  Bp      : String := ""
  Fv      : String := ""
  Oa      : String := ""
  Ob      : String := ""
  M       : String := ""
  Key     : String := ""
  Caret   : String := ""
  A       : String := ""
  B       : String := ""
  C       : String := ""
  Hash    : String := ""
  D       : String := ""
  Percent : String := ""
  Ch      : String := ""
  Tlong   : String := ""
  Ot      : String := ""
  F       : String := ""
  G       : String := ""
  Ip      : String := ""
  Mt      : String := ""
  Ov      : String := ""
  H       : String := ""
  It      : String := ""
  Oz      : String := ""
  L       : String := ""
  N       : String := ""
  O       : String := ""
  P       : String := ""
  Ex      : String := ""
  S       : String := ""
  T       : String := ""
  U       : String := ""
  V       : String := ""
  W       : String := ""
  Nf      : String := ""
  Y       : String := ""
  Z       : String := ""
  Ts      : String := ""
deriving DecidableEq, Repr

/-- What the outside world does when `fetchStockInfo` performs its single
upstream HTTP interaction.  Each constructor names the program point in
`main.go` whose error value it feeds:
`getError` — `http.Get` returns a non-nil error (connection refused, timeout);
`readError` — `io.ReadAll` on the body fails;
`decodeError` — `json.Unmarshal` fails on the body;
`goodBody` — the body decodes into a `Response` whose `msgArray` is the list. -/
inductive Upstream where
  | getError (msg : String)
  | readError (msg : String)
  | decodeError (msg : String)
  | goodBody (records : List StockInfo)
deriving DecidableEq, Repr

/-- Result of running `fetchStockInfo`.  `fatal` models `log.Fatalf`, which
prints and calls `os.Exit(1)`: the process terminates and no value is ever
returned to the caller.  `err` models a normal non-nil `error` return, and
`ok` a `(records, nil)` return. -/
inductive FetchResult where
  | fatal (msg : String)
  | err (msg : String)
  | ok (records : List StockInfo)
deriving DecidableEq, Repr

/-- `fetchStockInfo` (main.go lines 85–112), as a function of the upstream
interaction outcome.  A transport failure (`http.Get` error) and a body-read
failure both hit `log.Fatalf` and kill the process; only a JSON-decoding
failure is wrapped into a returned error (`fmt.Errorf`). -/
def fetchStockInfo : Upstream → FetchResult
  | .getError msg => .fatal ("Failed to fetch stock info: " ++ msg)
  | .readError msg => .fatal ("Failed to read response body: " ++ msg)
  | .decodeError msg => .err ("failed to unmarshal response: " ++ msg)
  | .goodBody records => .ok records

/-- The package-level cache cell of `main.go` (lines 79–83): `cacheData` and
`cacheTimestamp`.  The mutex is not part of the sequential state; the
concurrent model below adds it explicitly.  Timestamps are nanoseconds;
the Go zero `time.Time` is modelled as timestamp 0. -/
structure CacheState where
  cacheData : List StockInfo := []
  cacheTimestamp : Nat := 0
deriving DecidableEq, Repr

/-- `5 * time.Second` in nanoseconds — the fixed TTL compared against
`time.Since(cacheTimestamp)` on line 118 of main.go. -/
def ttlNs : Nat := 5000000000

/-- `getCachedStockInfo` (main.go lines 114–131), one sequential execution
under the lock.  `now` is the clock reading: line 118's `time.Since` test is
`now - cacheTimestamp < ttlNs`, and line 128's `time.Now()` stores the same
`now`.  Returns the Go return value together with the cache cell after the
call.  On a hit the stored data is returned with a nil error and the state is
untouched; on a miss the fetch outcome decides: a returned fetch error leaves
the cell unchanged, a successful fetch replaces both fields. -/
def getCachedStockInfo (now : Nat) (st : CacheState) (u : Upstream) :
    FetchResult × CacheState :=
  if now - st.cacheTimestamp < ttlNs then
    (.ok st.cacheData, st)
  else
    match fetchStockInfo u with
    | .fatal m => (.fatal m, st)
    | .err m => (.err m, st)
    | .ok records => (.ok records, ⟨records, now⟩)

/-- How many times one `getCachedStockInfo` call invokes `fetchStockInfo`:
zero on the line-118 fast path, one otherwise (visible from the source
structure: the only call site is line 122, reached exactly when the TTL
test fails). -/
def fetcherCalls (now : Nat) (st : CacheState) : Nat :=
  if now - st.cacheTimestamp < ttlNs then 0 else 1

/-- Line 166 of main.go: `fmt.Sprintf("%s_%s_gauge", info.Ex, info.C)`.
No character of either field is altered: the two fields are concatenated
verbatim with `_` and the `_gauge` suffix. -/
def metricName (info : StockInfo) : String :=
  info.Ex ++ "_" ++ info.C ++ "_gauge"

/-- Line 167 of main.go:
`fmt.Sprintf("%s_%s於%s %s的價格%s", info.Ex, info.At, info.D, info.Percent, info.Pz)`. -/
def metricHelp (info : StockInfo) : String :=
  info.Ex ++ "_" ++ info.At ++ "於" ++ info.D ++ " " ++ info.Percent ++ "的價格" ++ info.Pz

/-- A request-scoped gauge instrument: the `prometheus.GaugeOpts` name and
help plus the value set by `gaugeMetric.Set(price)`.  The value type is a
parameter: the claims below never depend on the numeric value itself, only
on whether `strconv.ParseFloat` succeeded, so the parsed value is carried
opaquely. -/
structure Metric (α : Type) where
  name : String
  help : String
  value : α
deriving DecidableEq, Repr

/-- First character allowed by Prometheus for a metric name
(`model.IsValidMetricName`, regex `[a-zA-Z_:]`). -/
def promMetricNameStart (c : Char) : Bool :=
  c.isAlpha || c = '_' || c = ':'

/-- Subsequent characters allowed by Prometheus for a metric name
(regex `[a-zA-Z0-9_:]`). -/
def promMetricNameChar (c : Char) : Bool :=
  c.isAlphanum || c = '_' || c = ':'

/-- Prometheus metric-name validity (`model.IsValidMetricName`): nonempty,
first character in `[a-zA-Z_:]`, rest in `[a-zA-Z0-9_:]`.  A gauge built
with an invalid name carries an invalid descriptor, and registering it
panics just like a duplicate does. -/
def promValidMetricName (s : String) : Bool :=
  match s.toList with
  | [] => false
  | c :: cs => promMetricNameStart c && cs.all promMetricNameChar

/-- Outcome of the per-request metric-building loop of the `/metrics`
handler (main.go lines 163–187).
`ok` — every record became a registered gauge;
`serverError` — `http.Error(w, msg, 500)` was issued and the handler
returned (the body is `msg`, no metric output precedes it);
`panicked` — `registry.MustRegister` panicked; `net/http` recovers the
panic in the serving goroutine (the process survives) but the connection
is closed without writing any response. -/
inductive BuildResult (α : Type) where
  | ok (metrics : List (Metric α))
  | serverError (msg : String)
  | panicked (msg : String)
deriving DecidableEq, Repr

/-- The `for _, info := range stockInfos` loop of the handler (lines
165–187), parameterized by the price parser (`strconv.ParseFloat`, an
external library function treated as an oracle `String → Option α`).
`registered` is the set of metric names already held by the fresh
`prometheus.Registry`.  Per record, in source order: the gauge is created
from `metricName`/`metricHelp` (line 166–172), the price is parsed —
failure answers 500 `Failed to parse price` and returns (lines 175–180) —
and `MustRegister` panics on an invalid descriptor or a name already
registered (line 186). -/
def processRecords (parse : String → Option α) :
    List StockInfo → List String → BuildResult α
  | [], _ => .ok []
  | info :: rest, registered =>
    match parse info.Pz with
    | none => .serverError "Failed to parse price"
    | some price =>
      if !promValidMetricName (metricName info) then
        .panicked "descriptor is invalid"
      else if metricName info ∈ registered then
        .panicked "duplicate metrics collector registration attempted"
      else
        match processRecords parse rest (metricName info :: registered) with
        | .ok ms => .ok (⟨metricName info, metricHelp info, price⟩ :: ms)
        | other => other

/-- The whole metric-building phase for one request: the loop started on a
fresh registry (`prometheus.NewRegistry()`, line 163). -/
def buildMetrics (parse : String → Option α) (records : List StockInfo) : BuildResult α :=
  processRecords parse records []

/-- What one `/metrics` request answers.  `ok ms` is a 200 with the
exposition-format serialization of `ms`; `serverError msg` is a 500 whose
body is `msg`; `panicked` is a connection closed by the recovered handler
panic, with no status line or body ever written; `fatalExit` is
`log.Fatalf` — the entire process exits mid-request. -/
inductive ScrapeResponse (α : Type) where
  | ok (metrics : List (Metric α))
  | serverError (msg : String)
  | panicked (msg : String)
  | fatalExit (msg : String)
deriving DecidableEq, Repr

/-- The HTTP status code a client observes for a response, if any:
`panicked` and `fatalExit` never produce a status line. -/
def responseStatus : ScrapeResponse α → Option Nat
  | .ok _ => some 200
  | .serverError _ => some 500
  | .panicked _ => none
  | .fatalExit _ => none

/-- The `/metrics` handler (main.go lines 153–192): ask the cache, answer
500 `Failed to fetch stock info` on a returned fetch error (lines 156–160),
otherwise build the request-scoped gauges from the snapshot.  Returns the
response together with the cache cell after the request. -/
def handleMetrics (parse : String → Option α) (now : Nat) (st : CacheState)
    (u : Upstream) : ScrapeResponse α × CacheState :=
  match getCachedStockInfo now st u with
  | (.fatal m, st1) => (.fatalExit m, st1)
  | (.err _, st1) => (.serverError "Failed to fetch stock info", st1)
  | (.ok records, st1) =>
    match buildMetrics parse records with
    | .ok ms => (.ok ms, st1)
    | .serverError m => (.serverError m, st1)
    | .panicked m => (.panicked m, st1)

/-- Start character of a valid metric identifier in the sense of the
specification: a letter or an underscore. -/
def specIdentStart (c : Char) : Bool :=
  c.isAlpha || c = '_'

/-- Later character of a valid metric identifier in the sense of the
specification: a letter, a digit or an underscore. -/
def specIdentChar (c : Char) : Bool :=
  c.isAlphanum || c = '_'

/-- Metric-identifier validity exactly as the specification words it:
composed only of letters, digits, and underscores, starting with a letter
or an underscore.  (Stricter than Prometheus validity: no colon.) -/
def specValidMetricIdent (s : String) : Bool :=
  match s.toList with
  | [] => false
  | c :: cs => specIdentStart c && cs.all specIdentChar

/-- The condition on the two source fields under which the unsanitized
name `Ex ++ "_" ++ C ++ "_gauge"` happens to be a valid metric identifier:
every character of `C` is a letter, digit or underscore, and `Ex` is either
empty (the name then starts with `_`) or starts with a letter or underscore
and continues with letters, digits or underscores. -/
def metricNameFieldsOk (info : StockInfo) : Bool :=
  (match info.Ex.toList with
   | [] => true
   | c :: cs => specIdentStart c && cs.all specIdentChar)
  && info.C.toList.all specIdentChar

/-- Concrete instance of the `strconv.ParseFloat` oracle, for evaluating
the pipeline at concrete inputs: accepts an optional sign followed by a
nonempty string of digits holding at least one digit and at most one
decimal point, and returns the accepted literal.  This agrees with
`strconv.ParseFloat` on every plain decimal such as `"1.0"` or `"92.5"`
(accepted) and on every non-numeric string such as `"abc"` or `"-"`
(rejected); Go forms with exponents, hex mantissas or inf/nan spellings
are not needed at any input used below. -/
def decMantissaOk (cs : List Char) : Bool :=
  cs.any Char.isDigit && cs.all (fun c => c.isDigit || c = '.')
    && (cs.filter (fun c => c = '.')).length ≤ 1

/-- String-level wrapper of `decMantissaOk`: strips one optional sign. -/
def goDecimalOk (s : String) : Bool :=
  match s.toList with
  | '+' :: cs => decMantissaOk cs
  | '-' :: cs => decMantissaOk cs
  | cs => decMantissaOk cs

/-- The concrete parser fed to the pipeline in concrete evaluations. -/
def parseDec (s : String) : Option String :=
  if goDecimalOk s then some s else none

/-- A representative well-formed quote record (TWSE 0050 on the `tse`
exchange) used to evaluate the pipeline at concrete inputs. -/
def sampleInfo : StockInfo :=
  { Ex := "tse", C := "0050", At := "元大台灣50", D := "20240101",
    Percent := "0.5", Pz := "130.5" }

/-- A record whose price field is not numeric. -/
def badPriceInfo : StockInfo :=
  { Ex := "tse", C := "2330", At := "台積電", D := "20240101",
    Percent := "-", Pz := "abc" }

/-- A second well-formed record distinct from `sampleInfo`. -/
def tsmcInfo : StockInfo :=
  { Ex := "tse", C := "2330", At := "台積電", D := "20240101",
    Percent := "1.2", Pz := "600" }

/-- A record whose category field carries a character that is not a letter,
digit or underscore. -/
def dotInfo : StockInfo :=
  { Ex := "tse", C := "2330.tw", At := "台積電", D := "20240101",
    Percent := "1.2", Pz := "650" }

/-- When the loop completes without aborting, the produced gauges are in
bijection with the records, each carrying that record's `metricName` and
`metricHelp`. -/
theorem processRecords_ok_fields (parse : String → Option α) :
    ∀ (records : List StockInfo) (registered : List String) (ms : List (Metric α)),
      processRecords parse records registered = .ok ms →
      ms.map (fun m => m.name) = records.map metricName
      ∧ ms.map (fun m => m.help) = records.map metricHelp
  | [], _, ms, h => by
      simp only [processRecords] at h
      cases h
      simp
  | info :: rest, registered, ms, h => by
      cases hp : parse info.Pz with
      | none => simp only [processRecords, hp] at h; cases h
      | some v =>
        simp only [processRecords, hp] at h
        cases hval : promValidMetricName (metricName info) with
        | false => simp [hval] at h
        | true =>
          simp only [hval, Bool.not_true, Bool.false_eq_true, if_false] at h
          by_cases hmem : metricName info ∈ registered
          · simp only [if_pos hmem] at h; cases h
          · simp only [if_neg hmem] at h
            cases hrec : processRecords parse rest (metricName info :: registered) with
            | ok ms2 =>
              rw [hrec] at h
              cases h
              have ih := processRecords_ok_fields parse rest
                (metricName info :: registered) ms2 hrec
              simp [ih.1, ih.2]
            | serverError m => rw [hrec] at h; cases h
            | panicked m => rw [hrec] at h; cases h

/-- If every record before `bad` parses, registers a valid, pairwise
distinct metric name not already present in the registry, and `bad` is the
first record whose price fails to parse, the loop reaches `bad` and aborts
there with the 500. -/
theorem processRecords_parse_failure (parse : String → Option α) :
    ∀ (pre : List StockInfo) (bad : StockInfo) (rest : List StockInfo)
      (registered : List String),
      (∀ r ∈ pre, (parse r.Pz).isSome) →
      parse bad.Pz = none →
      (∀ r ∈ pre, promValidMetricName (metricName r) = true) →
      (pre.map metricName).Nodup →
      (∀ r ∈ pre, metricName r ∉ registered) →
      processRecords parse (pre ++ bad :: rest) registered =
        .serverError "Failed to parse price"
  | [], bad, rest, registered, _, hbad, _, _, _ => by
      simp only [List.nil_append, processRecords, hbad]
  | p :: pre, bad, rest, registered, hpre, hbad, hval, hnodup, hreg => by
      obtain ⟨v, hv⟩ := Option.isSome_iff_exists.mp (hpre p (by simp))
      have hvalp := hval p (by simp)
      have hregp : metricName p ∉ registered := hreg p (by simp)
      have hnd : metricName p ∉ pre.map metricName ∧ (pre.map metricName).Nodup := by
        rw [List.map_cons, List.nodup_cons] at hnodup
        exact hnodup
      have hnotin : ∀ r ∈ pre, metricName r ∉ metricName p :: registered := by
        intro r hr
        simp only [List.mem_cons]
        push_neg
        constructor
        · intro heq
          exact hnd.1 (heq ▸ List.mem_map_of_mem metricName hr)
        · exact hreg r (by simp [hr])
      have hrec := processRecords_parse_failure parse pre bad rest
        (metricName p :: registered) (fun r hr => hpre r (by simp [hr])) hbad
        (fun r hr => hval r (by simp [hr])) hnd.2 hnotin
      simp only [List.cons_append, processRecords, hv, hvalp, Bool.not_true,
        Bool.false_eq_true, if_false, if_neg hregp, List.append_eq, hrec]

/-! ## Claim theorems -/

/-- **C1** (code_bug evidence).  The claim says a network/transport failure
and a response-decoding failure are both reported as a recoverable
`FetchError`, the process terminating on neither, with the handler
answering 500.  Evaluating `fetchStockInfo` and the handler at a transport
failure shows the code instead reaches `log.Fatalf`: the process exits and
the client never receives any status line (`responseStatus = none`, not
`some 500`).  Only the decoding failure behaves as claimed, yielding the
recoverable error that the handler turns into a 500. -/
theorem c1_transport_failure_kills_process :
    fetchStockInfo (.getError "connection refused") =
      .fatal "Failed to fetch stock info: connection refused"
    ∧ handleMetrics parseDec ttlNs ⟨[], 0⟩ (.getError "connection refused") =
      (.fatalExit "Failed to fetch stock info: connection refused", ⟨[], 0⟩)
    ∧ responseStatus (ScrapeResponse.fatalExit "Failed to fetch stock info: connection refused" :
        ScrapeResponse String) = none
    ∧ fetchStockInfo (.decodeError "unexpected end of JSON input") =
      .err "failed to unmarshal response: unexpected end of JSON input"
    ∧ handleMetrics parseDec ttlNs ⟨[], 0⟩ (.decodeError "unexpected end of JSON input") =
      (.serverError "Failed to fetch stock info", ⟨[], 0⟩)
    ∧ responseStatus (ScrapeResponse.serverError "Failed to fetch stock info" :
        ScrapeResponse String) = some 500 := by
  refine ⟨rfl, ?_, rfl, rfl, ?_, rfl⟩ <;>
    simp [handleMetrics, getCachedStockInfo, fetchStockInfo, ttlNs]

/-- **C2**.  A `getCachedStockInfo` call finding the cache younger than the
5-second TTL returns the stored snapshot with a nil error, leaving the cell
untouched and performing zero fetcher calls — whatever the upstream would
have answered.  Hence of two requests less than 5 s apart (the first one a
miss whose fetch succeeds), only the first invokes the fetcher: one
upstream fetch in total. -/
theorem c2_ttl_hit_serves_snapshot_without_fetch (st : CacheState)
    (now0 now1 : Nat) (u0 u1 : Upstream) (d : List StockInfo)
    (hmiss : ¬ (now0 - st.cacheTimestamp < ttlNs))
    (hok : fetchStockInfo u0 = .ok d)
    (hfresh : now1 - now0 < ttlNs) :
    (∀ (st2 : CacheState) (now2 : Nat) (u2 : Upstream),
      now2 - st2.cacheTimestamp < ttlNs →
      getCachedStockInfo now2 st2 u2 = (.ok st2.cacheData, st2)
        ∧ fetcherCalls now2 st2 = 0)
    ∧ getCachedStockInfo now0 st u0 = (.ok d, ⟨d, now0⟩)
    ∧ getCachedStockInfo now1 ⟨d, now0⟩ u1 = (.ok d, ⟨d, now0⟩)
    ∧ fetcherCalls now0 st + fetcherCalls now1 ⟨d, now0⟩ = 1 := by
  refine ⟨?_, ?_, ?_, ?_⟩
  · intro st2 now2 u2 hfresh2
    exact ⟨by simp [getCachedStockInfo, if_pos hfresh2],
      by simp [fetcherCalls, if_pos hfresh2]⟩
  · simp [getCachedStockInfo, if_neg hmiss, hok]
  · simp [getCachedStockInfo, if_pos hfresh]
  · simp [fetcherCalls, if_neg hmiss, if_pos hfresh]

/-- Witness for C2: a first scrape at clock 5 s against the empty initial
cache misses and fetches the sample record; a second scrape 1 ns later
hits and performs no fetch. -/
theorem c2_witness :
    (∀ (st2 : CacheState) (now2 : Nat) (u2 : Upstream),
      now2 - st2.cacheTimestamp < ttlNs →
      getCachedStockInfo now2 st2 u2 = (.ok st2.cacheData, st2)
        ∧ fetcherCalls now2 st2 = 0)
    ∧ getCachedStockInfo ttlNs ⟨[], 0⟩ (.goodBody [sampleInfo]) =
      (.ok [sampleInfo], ⟨[sampleInfo], ttlNs⟩)
    ∧ getCachedStockInfo (ttlNs + 1) ⟨[sampleInfo], ttlNs⟩ (.goodBody []) =
      (.ok [sampleInfo], ⟨[sampleInfo], ttlNs⟩)
    ∧ fetcherCalls ttlNs ⟨[], 0⟩ + fetcherCalls (ttlNs + 1) ⟨[sampleInfo], ttlNs⟩ = 1 :=
  c2_ttl_hit_serves_snapshot_without_fetch ⟨[], 0⟩ ttlNs (ttlNs + 1)
    (.goodBody [sampleInfo]) (.goodBody []) [sampleInfo]
    (by simp [ttlNs]) rfl (by simp [ttlNs])

/-- **C3**.  When the fetcher call returns an error, `getCachedStockInfo`
returns exactly that error with the cache cell unchanged: the previously
stored snapshot is not served to this caller (the result is `.err`, not
`.ok` of the old data). -/
theorem c3_fetch_error_leaves_cache_unchanged (st : CacheState) (now : Nat)
    (u : Upstream) (m : String)
    (hmiss : ¬ (now - st.cacheTimestamp < ttlNs))
    (herr : fetchStockInfo u = .err m) :
    getCachedStockInfo now st u = (.err m, st) := by
  simp [getCachedStockInfo, if_neg hmiss, herr]

/-- Witness for C3: a miss at clock 5 s over a cache holding the sample
record, with the upstream body failing to decode — the old record stays
stored, the decode error is returned. -/
theorem c3_witness :
    getCachedStockInfo ttlNs ⟨[sampleInfo], 0⟩ (.decodeError "invalid character") =
      (.err "failed to unmarshal response: invalid character", ⟨[sampleInfo], 0⟩) :=
  c3_fetch_error_leaves_cache_unchanged ⟨[sampleInfo], 0⟩ ttlNs
    (.decodeError "invalid character") "failed to unmarshal response: invalid character"
    (by simp [ttlNs]) rfl

/-- **C8**.  When the fetcher call succeeds on a miss, `getCachedStockInfo`
replaces both `cacheData` and `cacheTimestamp` together with the new values
and returns the new snapshot; the one call performs exactly one fetch, and
the stored timestamp strictly advances (the miss condition forces the old
timestamp more than a full TTL behind `now`). -/
theorem c8_fetch_success_replaces_both_fields (st : CacheState) (now : Nat)
    (u : Upstream) (d : List StockInfo)
    (hmiss : ¬ (now - st.cacheTimestamp < ttlNs))
    (hok : fetchStockInfo u = .ok d) :
    getCachedStockInfo now st u = (.ok d, ⟨d, now⟩)
    ∧ fetcherCalls now st = 1
    ∧ st.cacheTimestamp < now := by
  refine ⟨?_, ?_, ?_⟩
  · simp [getCachedStockInfo, if_neg hmiss, hok]
  · simp [fetcherCalls, if_neg hmiss]
  · simp only [ttlNs] at hmiss
    omega

/-- Witness for C8: a scrape at clock 10 s against a cache stamped at 1 s
(stale by 9 s) whose fetch succeeds stores the new record with timestamp
10 s, strictly after 1 s. -/
theorem c8_witness :
    getCachedStockInfo (2 * ttlNs) ⟨[], 1000000000⟩ (.goodBody [sampleInfo]) =
      (.ok [sampleInfo], ⟨[sampleInfo], 2 * ttlNs⟩)
    ∧ fetcherCalls (2 * ttlNs) ⟨[], 1000000000⟩ = 1
    ∧ (1000000000 : Nat) < 2 * ttlNs :=
  c8_fetch_success_replaces_both_fields ⟨[], 1000000000⟩ (2 * ttlNs)
    (.goodBody [sampleInfo]) [sampleInfo] (by simp [ttlNs]) rfl

/-- **C4** (amended).  If every record before the first unparsable-price
record parses and registers a valid, pairwise-distinct metric name, then
the build aborts at the unparsable record with `Failed to parse price`:
the scrape answers 500 and the body is just that message — no partial
metric output (a `serverError` carries no instruments).  The proviso is
forced by the counterexample below: an earlier `MustRegister` panic can
preempt the parse failure. -/
theorem c4_first_parse_failure_aborts_500 (parse : String → Option α)
    (pre : List StockInfo) (bad : StockInfo) (rest : List StockInfo)
    (now : Nat) (st : CacheState) (u : Upstream)
    (hpre : ∀ r ∈ pre, (parse r.Pz).isSome)
    (hbad : parse bad.Pz = none)
    (hval : ∀ r ∈ pre, promValidMetricName (metricName r) = true)
    (hnodup : (pre.map metricName).Nodup)
    (hmiss : ¬ (now - st.cacheTimestamp < ttlNs))
    (hok : fetchStockInfo u = .ok (pre ++ bad :: rest)) :
    buildMetrics parse (pre ++ bad :: rest) = .serverError "Failed to parse price"
    ∧ handleMetrics parse now st u =
        (.serverError "Failed to parse price", ⟨pre ++ bad :: rest, now⟩)
    ∧ responseStatus (ScrapeResponse.serverError "Failed to parse price" :
        ScrapeResponse α) = some 500 := by
  have hbuild : buildMetrics parse (pre ++ bad :: rest) =
      .serverError "Failed to parse price" :=
    processRecords_parse_failure parse pre bad rest [] hpre hbad hval hnodup
      (by simp)
  refine ⟨hbuild, ?_, rfl⟩
  simp only [handleMetrics, getCachedStockInfo, if_neg hmiss, hok, hbuild]

/-- Witness for C4 (amended): a miss at clock 5 s fetches `[sampleInfo,
badPriceInfo]`; the first record parses and registers cleanly, the second
has price `"abc"` — the request answers 500 `Failed to parse price`. -/
theorem c4_witness :
    buildMetrics parseDec ([sampleInfo] ++ badPriceInfo :: []) =
      .serverError "Failed to parse price"
    ∧ handleMetrics parseDec ttlNs ⟨[], 0⟩ (.goodBody [sampleInfo, badPriceInfo]) =
        (.serverError "Failed to parse price", ⟨[sampleInfo] ++ badPriceInfo :: [], ttlNs⟩)
    ∧ responseStatus (ScrapeResponse.serverError "Failed to parse price" :
        ScrapeResponse String) = some 500 :=
  c4_first_parse_failure_aborts_500 parseDec [sampleInfo] badPriceInfo []
    ttlNs ⟨[], 0⟩ (.goodBody [sampleInfo, badPriceInfo])
    (by intro r hr; rw [List.mem_singleton] at hr; subst hr; decide)
    (by decide)
    (by intro r hr; rw [List.mem_singleton] at hr; subst hr; decide)
    (by decide)
    (by decide)
    rfl

/-- C4 as stated is false on the code: in the response
`[sampleInfo, sampleInfo, badPriceInfo]` the third record's price `"abc"`
does not parse, yet the scrape does not answer 500 — the duplicate name of
the second record makes `MustRegister` panic first, and the connection is
dropped with no status at all. -/
theorem c4_counterexample :
    parseDec badPriceInfo.Pz = none
    ∧ badPriceInfo ∈ [sampleInfo, sampleInfo, badPriceInfo]
    ∧ buildMetrics parseDec [sampleInfo, sampleInfo, badPriceInfo] =
        .panicked "duplicate metrics collector registration attempted"
    ∧ responseStatus (ScrapeResponse.panicked
        "duplicate metrics collector registration attempted" :
        ScrapeResponse String) = none := by
  refine ⟨by decide, by simp, by decide, rfl⟩

/-- **C5** (code_bug evidence).  Two records with the same
exchange/category pair produce the same metric name inside one response;
evaluating the handler shows the second registration panics in
`MustRegister` rather than aborting with a recoverable error: the client
gets no 500 and no response at all (`responseStatus = none`) — the
connection is dropped, though the recovered goroutine leaves the process
running. -/
theorem c5_duplicate_metric_name_panics :
    buildMetrics parseDec [sampleInfo, sampleInfo] =
      .panicked "duplicate metrics collector registration attempted"
    ∧ handleMetrics parseDec ttlNs ⟨[], 0⟩ (.goodBody [sampleInfo, sampleInfo]) =
        (.panicked "duplicate metrics collector registration attempted",
          ⟨[sampleInfo, sampleInfo], ttlNs⟩)
    ∧ responseStatus (ScrapeResponse.panicked
        "duplicate metrics collector registration attempted" :
        ScrapeResponse String) = none := by
  refine ⟨by decide, by decide, rfl⟩

/-- **C6** (amended).  `metricName` performs no sanitization: the name is
the verbatim concatenation `Ex ++ "_" ++ C ++ "_gauge"`, and it is a valid
metric identifier (letters, digits, underscores, not starting with a
digit) exactly when the two source fields already consist of allowed
characters — `metricNameFieldsOk`.  Disallowed characters pass through
unreplaced. -/
theorem c6_no_sanitization_validity_iff (info : StockInfo) :
    metricName info = info.Ex ++ "_" ++ info.C ++ "_gauge"
    ∧ specValidMetricIdent (metricName info) = metricNameFieldsOk info := by
  constructor
  · rfl
  · have hg : ("_gauge".toList.all specIdentChar) = true := by decide
    unfold specValidMetricIdent metricNameFieldsOk metricName
    rw [show ((info.Ex ++ "_" ++ info.C ++ "_gauge").toList)
        = info.Ex.toList ++ '_' :: (info.C.toList ++ "_gauge".toList) by
      simp [String.toList, String.data_append]]
    have h1 : specIdentChar '_' = true := by decide
    have h2 : specIdentChar 'g' = true := by decide
    have h3 : specIdentChar 'a' = true := by decide
    have h4 : specIdentChar 'u' = true := by decide
    have h5 : specIdentChar 'e' = true := by decide
    have h6 : specIdentStart '_' = true := by decide
    cases hEx : info.Ex.toList with
    | nil =>
      simp [List.all_append, h1, h2, h3, h4, h5, h6]
    | cons c cs =>
      simp [List.all_append, h1, h2, h3, h4, h5, Bool.and_assoc]

/-- C6 as stated is false on the code: the record `dotInfo` carries the
category `"2330.tw"`; its metric name keeps the dot verbatim and is not a
valid metric identifier — nothing was sanitized. -/
theorem c6_counterexample :
    metricName dotInfo = "tse_2330.tw_gauge"
    ∧ specValidMetricIdent (metricName dotInfo) = false := by
  refine ⟨by decide, by decide⟩

/-- **C7**.  In every successfully built response, the help string of each
instrument is the interpolation of that record's exchange (`Ex`), name
(`At`, the free-text instrument name, json tag `@`), date (`D`),
percent-change (`Percent`) and price (`Pz`) fields, in the source's
format-string order. -/
theorem c7_help_interpolates_record_fields (parse : String → Option α)
    (records : List StockInfo) (ms : List (Metric α))
    (h : buildMetrics parse records = .ok ms) :
    ms.map (fun m => m.help)
      = records.map (fun info =>
          info.Ex ++ "_" ++ info.At ++ "於" ++ info.D ++ " "
            ++ info.Percent ++ "的價格" ++ info.Pz) :=
  (processRecords_ok_fields parse records [] ms h).2

/-- Witness for C7: the single-record response for `tsmcInfo` yields one
gauge whose help interpolates its five fields. -/
theorem c7_witness :
    ([⟨"tse_2330_gauge", "tse_台積電於20240101 1.2的價格600", "600"⟩] :
        List (Metric String)).map (fun m => m.help)
      = [tsmcInfo].map (fun info =>
          info.Ex ++ "_" ++ info.At ++ "於" ++ info.D ++ " "
            ++ info.Percent ++ "的價格" ++ info.Pz) :=
  c7_help_interpolates_record_fields parseDec [tsmcInfo]
    [⟨"tse_2330_gauge", "tse_台積電於20240101 1.2的價格600", "600"⟩]
    (by decide)

/-- **C10**.  In every successfully built response, each instrument's name
is exactly the record's exchange field, an underscore, the category field,
and the fixed suffix `_gauge`; in particular every emitted metric name ends
in `_gauge`. -/
theorem c10_metric_name_is_ex_c_gauge (parse : String → Option α)
    (records : List StockInfo) (ms : List (Metric α))
    (h : buildMetrics parse records = .ok ms) :
    ms.map (fun m => m.name)
      = records.map (fun info => info.Ex ++ "_" ++ info.C ++ "_gauge")
    ∧ ∀ m ∈ ms, ∃ p, m.name = p ++ "_gauge" := by
  have h1 := (processRecords_ok_fields parse records [] ms h).1
  constructor
  · exact h1
  · intro m hm
    have hmem : m.name ∈ records.map metricName := by
      rw [← h1]
      exact List.mem_map_of_mem (fun m => m.name) hm
    obtain ⟨info, _, heq⟩ := List.mem_map.mp hmem
    exact ⟨info.Ex ++ "_" ++ info.C, by rw [← heq]; rfl⟩

/-- Witness for C10: the single-record response for `sampleInfo` yields
one gauge named `tse_0050_gauge`. -/
theorem c10_witness :
    ([⟨"tse_0050_gauge", "tse_元大台灣50於20240101 0.5的價格130.5", "130.5"⟩] :
        List (Metric String)).map (fun m => m.name)
      = [sampleInfo].map (fun info => info.Ex ++ "_" ++ info.C ++ "_gauge")
    ∧ ∀ m ∈ ([⟨"tse_0050_gauge", "tse_元大台灣50於20240101 0.5的價格130.5",
          "130.5"⟩] : List (Metric String)), ∃ p, m.name = p ++ "_gauge" :=
  c10_metric_name_is_ex_c_gauge parseDec [sampleInfo]
    [⟨"tse_0050_gauge", "tse_元大台灣50於20240101 0.5的價格130.5", "130.5"⟩]
    (by decide)

/-! ## Concurrent model of `getCachedStockInfo` under `cacheMutex`

`n` scrape goroutines each execute `getCachedStockInfo` once, interleaved
arbitrarily; the only shared state is the cache cell and `cacheMutex`.
All requests are concurrent: they run at the same clock reading `now`, and
the upstream fetch succeeds with records `d` (the scenario of the claim —
a cache miss with a successful fetch).  The lock discipline is the
source's: `cacheMutex.Lock()` on entry, `defer cacheMutex.Unlock()`, so
the lock is held from before the TTL test until return, across the fetch. -/

/-- Position of one goroutine inside `getCachedStockInfo`:
`start` — before `cacheMutex.Lock()` (line 115);
`locked` — holding the lock, about to evaluate the TTL test (line 118);
`fetching` — holding the lock, inside `fetchStockInfo` (line 122), i.e.
the upstream call is in flight;
`storing` — holding the lock, fetch returned, about to write the two cache
fields (lines 127–128);
`done` — returned, the deferred `Unlock` has run. -/
inductive ReqPC where
  | start
  | locked
  | fetching
  | storing
  | done
deriving DecidableEq, Repr

/-- Shared state of `n` concurrent requests: each goroutine's position,
the holder of `cacheMutex` (if held), the cache cell, and how many
upstream fetch calls have completed. -/
structure ConcState (n : Nat) where
  pc : Fin n → ReqPC
  lock : Option (Fin n)
  cache : CacheState
  fetchCount : Nat

/-- One interleaving step.  Acquiring requires the mutex to be free; every
in-critical-section step requires holding it, exactly as `sync.Mutex`
serializes the body of `getCachedStockInfo`. -/
inductive ConcStep (n now : Nat) (d : List StockInfo) :
    ConcState n → ConcState n → Prop where
  | acquire (s : ConcState n) (i : Fin n)
      (hpc : s.pc i = .start) (hl : s.lock = none) :
      ConcStep n now d s
        ⟨Function.update s.pc i .locked, some i, s.cache, s.fetchCount⟩
  | checkHit (s : ConcState n) (i : Fin n)
      (hpc : s.pc i = .locked) (hl : s.lock = some i)
      (hfresh : now - s.cache.cacheTimestamp < ttlNs) :
      ConcStep n now d s
        ⟨Function.update s.pc i .done, none, s.cache, s.fetchCount⟩
  | checkMiss (s : ConcState n) (i : Fin n)
      (hpc : s.pc i = .locked) (hl : s.lock = some i)
      (hstale : ¬ (now - s.cache.cacheTimestamp < ttlNs)) :
      ConcStep n now d s
        ⟨Function.update s.pc i .fetching, s.lock, s.cache, s.fetchCount⟩
  | fetchReturn (s : ConcState n) (i : Fin n)
      (hpc : s.pc i = .fetching) (hl : s.lock = some i) :
      ConcStep n now d s
        ⟨Function.update s.pc i .storing, s.lock, s.cache, s.fetchCount + 1⟩
  | storeRelease (s : ConcState n) (i : Fin n)
      (hpc : s.pc i = .storing) (hl : s.lock = some i) :
      ConcStep n now d s
        ⟨Function.update s.pc i .done, none, ⟨d, now⟩, s.fetchCount⟩

/-- All `n` requests pending, mutex free, cache cell `st0`, no fetch yet. -/
def concInit (n : Nat) (st0 : CacheState) : ConcState n :=
  ⟨fun _ => .start, none, st0, 0⟩

/-- Inductive invariant for a run from a stale cell `st0`: (a) any
goroutine past `Lock()` and not yet returned is the mutex holder; (b) the
run is in one of three phases — nobody has fetched yet (cell still `st0`,
nobody storing or done), exactly one fetch completed and its goroutine is
about to store (everyone else still waiting for the mutex), or the new
snapshot `⟨d, now⟩` is stored (fresh, so nobody fetches again). -/
def ConcInv (n now : Nat) (st0 : CacheState) (d : List StockInfo)
    (s : ConcState n) : Prop :=
  (∀ i : Fin n, s.pc i ≠ .start → s.pc i ≠ .done → s.lock = some i)
  ∧ ((s.fetchCount = 0 ∧ s.cache = st0
        ∧ ∀ i, s.pc i ≠ .storing ∧ s.pc i ≠ .done)
     ∨ (s.fetchCount = 1 ∧ s.cache = st0
        ∧ ∃ i, s.pc i = .storing ∧ ∀ j, j ≠ i → s.pc j = .start)
     ∨ (s.fetchCount = 1 ∧ s.cache = ⟨d, now⟩
        ∧ ∀ i, s.pc i ≠ .fetching ∧ s.pc i ≠ .storing))

/-- The invariant is preserved by every interleaving step. -/
theorem concInv_step (n now : Nat) (st0 : CacheState) (d : List StockInfo)
    (hstale : ¬ (now - st0.cacheTimestamp < ttlNs))
    (s s2 : ConcState n) (hstep : ConcStep n now d s s2)
    (hinv : ConcInv n now st0 d s) : ConcInv n now st0 d s2 := by
  obtain ⟨hA, hC⟩ := hinv
  cases hstep with
  | acquire i hpc hl =>
    refine ⟨?_, ?_⟩
    · intro j h1 h2
      show some i = some j
      by_cases hij : j = i
      · rw [hij]
      · simp only [Function.update_apply, if_neg hij] at h1 h2
        have hlj := hA j h1 h2
        rw [hl] at hlj
        exact Option.noConfusion hlj
    · rcases hC with ⟨hc0, hcache, hnost⟩ | ⟨_, _, i0, hsto, _⟩ | ⟨hc1, hcache, hnof⟩
      · refine Or.inl ⟨hc0, hcache, ?_⟩
        intro j
        show Function.update s.pc i .locked j ≠ .storing
          ∧ Function.update s.pc i .locked j ≠ .done
        by_cases hij : j = i
        · simp [Function.update_apply, hij]
        · simp only [Function.update_apply, if_neg hij]
          exact hnost j
      · exfalso
        have hlj := hA i0 (by simp [hsto]) (by simp [hsto])
        rw [hl] at hlj
        exact Option.noConfusion hlj
      · refine Or.inr (Or.inr ⟨hc1, hcache, ?_⟩)
        intro j
        show Function.update s.pc i .locked j ≠ .fetching
          ∧ Function.update s.pc i .locked j ≠ .storing
        by_cases hij : j = i
        · simp [Function.update_apply, hij]
        · simp only [Function.update_apply, if_neg hij]
          exact hnof j
  | checkHit i hpc hl hfresh =>
    rcases hC with ⟨_, hcache, _⟩ | ⟨_, hcache, _⟩ | ⟨hc1, hcache, hnof⟩
    · exact absurd (hcache ▸ hfresh) hstale
    · exact absurd (hcache ▸ hfresh) hstale
    · refine ⟨?_, Or.inr (Or.inr ⟨hc1, hcache, ?_⟩)⟩
      · intro j h1 h2
        exfalso
        by_cases hij : j = i
        · subst hij
          simp [Function.update_apply] at h2
        · simp only [Function.update_apply, if_neg hij] at h1 h2
          have hlj := hA j h1 h2
          rw [hl] at hlj
          exact hij (Option.some.inj hlj).symm
      · intro j
        show Function.update s.pc i .done j ≠ .fetching
          ∧ Function.update s.pc i .done j ≠ .storing
        by_cases hij : j = i
        · simp [Function.update_apply, hij]
        · simp only [Function.update_apply, if_neg hij]
          exact hnof j
  | checkMiss i hpc hl hstale2 =>
    rcases hC with ⟨hc0, hcache, hnost⟩ | ⟨_, _, i0, hsto, hothers⟩ | ⟨_, hcache, _⟩
    · refine ⟨?_, Or.inl ⟨hc0, hcache, ?_⟩⟩
      · intro j h1 h2
        show s.lock = some j
        by_cases hij : j = i
        · rw [hij, hl]
        · simp only [Function.update_apply, if_neg hij] at h1 h2
          exact hA j h1 h2
      · intro j
        show Function.update s.pc i .fetching j ≠ .storing
          ∧ Function.update s.pc i .fetching j ≠ .done
        by_cases hij : j = i
        · simp [Function.update_apply, hij]
        · simp only [Function.update_apply, if_neg hij]
          exact hnost j
    · exfalso
      by_cases hii : i = i0
      · rw [hii, hsto] at hpc
        exact ReqPC.noConfusion hpc
      · rw [hothers i hii] at hpc
        exact ReqPC.noConfusion hpc
    · exfalso
      rw [hcache] at hstale2
      simp [ttlNs] at hstale2
  | fetchReturn i hpc hl =>
    rcases hC with ⟨hc0, hcache, hnost⟩ | ⟨_, _, i0, hsto, hothers⟩ | ⟨_, _, hnof⟩
    · refine ⟨?_, Or.inr (Or.inl ⟨by rw [hc0], hcache, i, ?_, ?_⟩)⟩
      · intro j h1 h2
        show s.lock = some j
        by_cases hij : j = i
        · rw [hij, hl]
        · simp only [Function.update_apply, if_neg hij] at h1 h2
          exact hA j h1 h2
      · show Function.update s.pc i .storing i = .storing
        simp [Function.update_apply]
      · intro j hij
        show Function.update s.pc i .storing j = .start
        simp only [Function.update_apply, if_neg hij]
        by_contra hstart
        have hlj := hA j hstart (hnost j).2
        rw [hl] at hlj
        exact hij (Option.some.inj hlj).symm
    · exfalso
      by_cases hii : i = i0
      · rw [hii, hsto] at hpc
        exact ReqPC.noConfusion hpc
      · rw [hothers i hii] at hpc
        exact ReqPC.noConfusion hpc
    · exact absurd hpc (hnof i).1
  | storeRelease i hpc hl =>
    rcases hC with ⟨_, _, hnost⟩ | ⟨hc1, _, i0, hsto, hothers⟩ | ⟨_, _, hnof⟩
    · exact absurd hpc (hnost i).1
    · have hii : i = i0 := by
        by_contra hii
        rw [hothers i hii] at hpc
        exact ReqPC.noConfusion hpc
      refine ⟨?_, Or.inr (Or.inr ⟨hc1, rfl, ?_⟩)⟩
      · intro j h1 h2
        exfalso
        by_cases hij : j = i
        · subst hij
          simp [Function.update_apply] at h2
        · simp only [Function.update_apply, if_neg hij] at h1 h2
          rw [hii] at hij
          rw [hothers j hij] at h1
          exact h1 rfl
      · intro j
        show Function.update s.pc i .done j ≠ .fetching
          ∧ Function.update s.pc i .done j ≠ .storing
        by_cases hij : j = i
        · simp [Function.update_apply, hij]
        · simp only [Function.update_apply, if_neg hij]
          rw [hii] at hij
          rw [hothers j hij]
          exact ⟨by simp, by simp⟩
    · exact absurd hpc (hnof i).2

/-- The invariant holds in every state reachable from the all-pending
initial state over a stale cell. -/
theorem concInv_reachable (n now : Nat) (st0 : CacheState) (d : List StockInfo)
    (hstale : ¬ (now - st0.cacheTimestamp < ttlNs)) (s : ConcState n)
    (hreach : Relation.ReflTransGen (ConcStep n now d) (concInit n st0) s) :
    ConcInv n now st0 d s := by
  induction hreach with
  | refl =>
    refine ⟨fun i h1 _ => absurd rfl h1,
      Or.inl ⟨rfl, rfl, fun i => ⟨?_, ?_⟩⟩⟩
    · show ReqPC.start ≠ ReqPC.storing
      simp
    · show ReqPC.start ≠ ReqPC.done
      simp
  | tail _ hstep ih =>
    exact concInv_step n now st0 d hstale _ _ hstep ih

/-- **C9**.  In every interleaving of `n` concurrent scrape requests
hitting a stale cache (all at clock `now`, the fetch succeeding with `d`),
the mutex held across the whole get-or-fetch body ensures (a) at most one
request is ever inside the upstream fetch at any reachable state, and
(b) once all requests have returned, exactly one upstream fetch was
performed in total. -/
theorem c9_lock_single_flight (n now : Nat) (st0 : CacheState)
    (d : List StockInfo) (s : ConcState n)
    (hstale : ¬ (now - st0.cacheTimestamp < ttlNs))
    (hreach : Relation.ReflTransGen (ConcStep n now d) (concInit n st0) s) :
    (∀ i j : Fin n, s.pc i = .fetching → s.pc j = .fetching → i = j)
    ∧ (0 < n → (∀ i, s.pc i = .done) → s.fetchCount = 1) := by
  obtain ⟨hA, hC⟩ := concInv_reachable n now st0 d hstale s hreach
  constructor
  · intro i j hi hj
    have hli := hA i (by simp [hi]) (by simp [hi])
    have hlj := hA j (by simp [hj]) (by simp [hj])
    rw [hli] at hlj
    exact Option.some.inj hlj
  · intro hn hdone
    rcases hC with ⟨_, _, hnost⟩ | ⟨_, _, i0, hsto, _⟩ | ⟨hc1, _, _⟩
    · exact absurd (hdone ⟨0, hn⟩) (hnost ⟨0, hn⟩).2
    · rw [hdone i0] at hsto
      exact ReqPC.noConfusion hsto
    · exact hc1

/-- The states of a complete one-request run used to witness C9. -/
def c9s0 : ConcState 1 := concInit 1 ⟨[], 0⟩

/-- After `acquire`. -/
def c9s1 : ConcState 1 :=
  ⟨Function.update c9s0.pc 0 .locked, some 0, c9s0.cache, c9s0.fetchCount⟩

/-- After `checkMiss`. -/
def c9s2 : ConcState 1 :=
  ⟨Function.update c9s1.pc 0 .fetching, c9s1.lock, c9s1.cache, c9s1.fetchCount⟩

/-- After `fetchReturn`. -/
def c9s3 : ConcState 1 :=
  ⟨Function.update c9s2.pc 0 .storing, c9s2.lock, c9s2.cache, c9s2.fetchCount + 1⟩

/-- After `storeRelease`: the goroutine is done and one fetch happened. -/
def c9s4 : ConcState 1 :=
  ⟨Function.update c9s3.pc 0 .done, none, ⟨[], ttlNs⟩, c9s3.fetchCount⟩

/-- A complete run of one request from the stale initial cell. -/
theorem c9_run : Relation.ReflTransGen (ConcStep 1 ttlNs []) c9s0 c9s4 := by
  have h1 : ConcStep 1 ttlNs [] c9s0 c9s1 := ConcStep.acquire c9s0 0 rfl rfl
  have h2 : ConcStep 1 ttlNs [] c9s1 c9s2 :=
    ConcStep.checkMiss c9s1 0 (by simp [c9s1, c9s0, concInit]) rfl
      (by simp [c9s1, c9s0, concInit, ttlNs])
  have h3 : ConcStep 1 ttlNs [] c9s2 c9s3 :=
    ConcStep.fetchReturn c9s2 0 (by simp [c9s2, c9s1, c9s0, concInit]) rfl
  have h4 : ConcStep 1 ttlNs [] c9s3 c9s4 :=
    ConcStep.storeRelease c9s3 0 (by simp [c9s3, c9s2, c9s1, c9s0, concInit]) rfl
  exact .tail (.tail (.tail (.tail .refl h1) h2) h3) h4

/-- Witness for C9: running a single request to completion from the stale
initial state performs exactly one fetch, by the claim theorem applied to
the concrete run. -/
theorem c9_witness : c9s4.fetchCount = 1 :=
  (c9_lock_single_flight 1 ttlNs ⟨[], 0⟩ [] c9s4 (by simp [ttlNs]) c9_run).2
    (by decide) (by decide)

end TwseExporter
